import Mathlib

/-!
Shallow embedding of `src/kasa/smartplug.py` (class `SmartPlug`).

The adapter reads from a cached system-info mapping (`sys_info`) owned by the
base session and issues remote calls through `_query_helper`, followed by a
cache resynchronization through `update`.  Python's dynamically typed values
are modelled by `PyVal`; the cache is an association list of string keys to
`PyVal`s, wrapped in `Option` (`none` is the cache of a freshly constructed
adapter, before the first successful `update`).  Python exceptions become the
`KasaError` sum; each mutator returns its result together with the list of
remote operations (`Effect`s) it issued.  Device/network failures of the
underlying transport are outside this model: remote calls and resyncs are
modelled as succeeding, since every claim concerns locally raised errors and
the calls issued.
-/

namespace KasaPlug

/-- A Python value as it appears in the cached system info and in the
arguments of `set_brightness`.  `vbool` is kept separate from `vint` because
Python `bool` is a subclass of `int`: `isinstance(True, int)` holds and
`True` compares as `1`. -/
inductive PyVal where
  | vint (n : Int)
  | vbool (b : Bool)
  | vstr (s : String)
  | vnone
deriving DecidableEq

/-- The cached system-info mapping (a Python dict with string keys). -/
abbrev SysInfo := List (String × PyVal)

/-- `d[key]` lookup on the mapping: first binding of `key`, if any. -/
def lookupKey : SysInfo → String → Option PyVal
  | [], _ => none
  | (k, v) :: rest, key => if k = key then some v else lookupKey rest key

/-- Python `key in d` membership test. -/
def hasKey (s : SysInfo) (key : String) : Bool :=
  (lookupKey s key).isSome

/-- The errors the adapter can raise.  `notReady` is the condition signalled
when a `requires_update`-guarded member is used before the first successful
resynchronization; `smartDeviceError` is `SmartDeviceException` raised in
this file; `valueError`, `typeError` and `keyError` are the corresponding
Python exceptions. -/
inductive KasaError where
  | notReady
  | smartDeviceError (msg : String)
  | valueError (msg : String)
  | typeError (msg : String)
  | keyError (key : String)
deriving DecidableEq

/-- One remote operation issued by the adapter: a vendor RPC through
`_query_helper target cmd params`, or a cache resynchronization through
`update()`. -/
inductive Effect where
  | query (target : String) (cmd : String) (params : List (String × PyVal))
  | updateCall
deriving DecidableEq

instance {ε α : Type _} [DecidableEq ε] [DecidableEq α] :
    DecidableEq (Except ε α) := fun a b =>
  match a, b with
  | .error e, .error f =>
    if h : e = f then .isTrue (by rw [h]) else .isFalse (by simp [h])
  | .ok x, .ok y =>
    if h : x = y then .isTrue (by rw [h]) else .isFalse (by simp [h])
  | .error _, .ok _ => .isFalse (by simp)
  | .ok _, .error _ => .isFalse (by simp)

/-- Python `isinstance(value, int)`: true for `int` and for `bool`
(a subclass of `int`), false otherwise; paired with the integer such a value
compares as, this is `pyIntOfVal`. -/
def pyIntOfVal : PyVal → Option Int
  | .vint n => some n
  | .vbool b => some (if b then 1 else 0)
  | .vstr _ => none
  | .vnone => none

/-- Python `bool(v)` truthiness. -/
def pyTruthy : PyVal → Bool
  | .vint n => n != 0
  | .vbool b => b
  | .vstr s => s != ""
  | .vnone => false

/-- Python `int(v)` conversion.  Integer strings are parsed (Python's
int-literal parsing, approximated by `String.toInt?`); other strings raise
`ValueError`; `None` raises `TypeError`. -/
def pyInt : PyVal → Except KasaError Int
  | .vint n => .ok n
  | .vbool b => .ok (if b then 1 else 0)
  | .vstr s =>
    match s.toInt? with
    | some n => .ok n
    | none => .error (.valueError ("invalid literal for int: " ++ s))
  | .vnone => .error (.typeError "int() argument must not be None")

/-- Python `a - v` with `a : int`: numeric values subtract (a `bool`
compares as 0/1), anything else raises `TypeError`. -/
def pyIntSub (a : Int) : PyVal → Except KasaError Int
  | .vint n => .ok (a - n)
  | .vbool b => .ok (a - (if b then 1 else 0))
  | .vstr _ => .error (.typeError "unsupported operand type for -")
  | .vnone => .error (.typeError "unsupported operand type for -")

/-- Python `datetime.timedelta(seconds=v)`: numeric values are accepted
(a `bool` compares as 0/1), anything else raises `TypeError`. -/
def pySeconds : PyVal → Except KasaError Int
  | .vint n => .ok n
  | .vbool b => .ok (if b then 1 else 0)
  | .vstr _ => .error (.typeError "unsupported type for timedelta seconds")
  | .vnone => .error (.typeError "unsupported type for timedelta seconds")

/-- Modelled from the spec: the `requires_update` decorator and the cached
`sys_info` live in `kasa.smartdevice`, which is not part of this excerpt.
Per the spec, any guarded member invoked before the first successful
resynchronization fails with a not-ready error reported distinctly from
device/network errors; after the first resynchronization the cached
system-info mapping is available. -/
def checkUpdated : Option SysInfo → Except KasaError SysInfo
  | none => .error .notReady
  | some sys_info => .ok sys_info

/-- `SmartPlug.is_dimmable` (`@requires_update` property):
`"brightness" in self.sys_info`. -/
def is_dimmable (cache : Option SysInfo) : Except KasaError Bool :=
  match checkUpdated cache with
  | .error e => .error e
  | .ok sys_info => .ok (hasKey sys_info "brightness")

/-- `SmartPlug.is_on` (`@requires_update` property):
`bool(self.sys_info["relay_state"])`. -/
def is_on (cache : Option SysInfo) : Except KasaError Bool :=
  match checkUpdated cache with
  | .error e => .error e
  | .ok sys_info =>
    match lookupKey sys_info "relay_state" with
    | none => .error (.keyError "relay_state")
    | some v => .ok (pyTruthy v)

/-- `SmartPlug.brightness` (`@requires_update` property): raises
`SmartDeviceException` when not dimmable, else `int(sys_info["brightness"])`. -/
def brightness (cache : Option SysInfo) : Except KasaError Int :=
  match checkUpdated cache with
  | .error e => .error e
  | .ok sys_info =>
    match is_dimmable cache with
    | .error e => .error e
    | .ok false => .error (.smartDeviceError "Device is not dimmable.")
    | .ok true =>
      match lookupKey sys_info "brightness" with
      | none => .error (.keyError "brightness")
      | some v => pyInt v

/-- `SmartPlug.led` (`@requires_update` property):
`bool(1 - self.sys_info["led_off"])`. -/
def led (cache : Option SysInfo) : Except KasaError Bool :=
  match checkUpdated cache with
  | .error e => .error e
  | .ok sys_info =>
    match lookupKey sys_info "led_off" with
    | none => .error (.keyError "led_off")
    | some v =>
      match pyIntSub 1 v with
      | .error e => .error e
      | .ok n => .ok (pyTruthy (.vint n))

/-- `SmartPlug.on_since` (`@requires_update` property):
`datetime.datetime.now() - datetime.timedelta(seconds=sys_info["on_time"])`.
The wall clock is passed in as `now` (in seconds); the result is the
corresponding timestamp in seconds. -/
def on_since (cache : Option SysInfo) (now : Int) : Except KasaError Int :=
  match checkUpdated cache with
  | .error e => .error e
  | .ok sys_info =>
    match lookupKey sys_info "on_time" with
    | none => .error (.keyError "on_time")
    | some v =>
      match pySeconds v with
      | .error e => .error e
      | .ok t => .ok (now - t)

/-- `SmartPlug.state_information` (`@requires_update` property): builds
`{"LED state": self.led, "On since": self.on_since}` and adds
`"Brightness": self.brightness` when `self.is_dimmable`. -/
def state_information (cache : Option SysInfo) (now : Int) :
    Except KasaError SysInfo :=
  match checkUpdated cache with
  | .error e => .error e
  | .ok _ =>
    match led cache with
    | .error e => .error e
    | .ok l =>
      match on_since cache now with
      | .error e => .error e
      | .ok o =>
        match is_dimmable cache with
        | .error e => .error e
        | .ok false => .ok [("LED state", .vbool l), ("On since", .vint o)]
        | .ok true =>
          match brightness cache with
          | .error e => .error e
          | .ok b =>
            .ok [("LED state", .vbool l), ("On since", .vint o),
                 ("Brightness", .vint b)]

/-- `SmartPlug.turn_on` (no `@requires_update`): issues
`_query_helper("system", "set_relay_state", {"state": 1})`, then `update()`. -/
def turn_on (_cache : Option SysInfo) : Except KasaError Unit × List Effect :=
  (.ok (), [.query "system" "set_relay_state" [("state", .vint 1)],
            .updateCall])

/-- `SmartPlug.turn_off` (no `@requires_update`): issues
`_query_helper("system", "set_relay_state", {"state": 0})`, then `update()`. -/
def turn_off (_cache : Option SysInfo) : Except KasaError Unit × List Effect :=
  (.ok (), [.query "system" "set_relay_state" [("state", .vint 0)],
            .updateCall])

/-- `SmartPlug.set_led` (no `@requires_update`): issues
`_query_helper("system", "set_led_off", {"off": int(not state)})`, then
`update()`. -/
def set_led (_cache : Option SysInfo) (state : Bool) :
    Except KasaError Unit × List Effect :=
  (.ok (), [.query "system" "set_led_off"
              [("off", .vint (if state then 0 else 1))],
            .updateCall])

/-- Message of the `ValueError` raised by `set_brightness` when the argument
is not an `int` (the source leaves the `%s` unformatted). -/
def typeErrMsg : String := "Brightness must be integer, not of %s."

/-- Message of the `ValueError` raised by `set_brightness` when the integer
argument is outside `0 < value <= 100`. -/
def rangeErrMsg (n : Int) : String :=
  "Brightness value " ++ toString n ++ " is not valid."

/-- `SmartPlug.set_brightness` (`@requires_update`): capability check via
`self.is_dimmable`, then `isinstance(value, int)` check, then the range check
`0 < value <= 100`; on success `await self.turn_on()`, then the dimmer RPC
`{"brightness": value}`, then `await self.update()`. -/
def set_brightness (cache : Option SysInfo) (value : PyVal) :
    Except KasaError Unit × List Effect :=
  match checkUpdated cache with
  | .error e => (.error e, [])
  | .ok _ =>
    match is_dimmable cache with
    | .error e => (.error e, [])
    | .ok false => (.error (.smartDeviceError "Device is not dimmable."), [])
    | .ok true =>
      match pyIntOfVal value with
      | none => (.error (.valueError typeErrMsg), [])
      | some n =>
        if 0 < n ∧ n ≤ 100 then
          match turn_on cache with
          | (.error e, tr) => (.error e, tr)
          | (.ok _, tr) =>
            (.ok (), tr ++
              [.query "smartlife.iot.dimmer" "set_brightness"
                 [("brightness", value)],
               .updateCall])
        else
          (.error (.valueError (rangeErrMsg n)), [])

/-- The power-on remote call (`set_relay_state` with `state = 1`). -/
def powerOnCall : Effect :=
  .query "system" "set_relay_state" [("state", .vint 1)]

/-- Whether an effect is a brightness remote call (the dimmer RPC),
regardless of the value it carries. -/
def isBrightnessCmd : Effect → Bool
  | .query target cmd _ => target = "smartlife.iot.dimmer" && cmd = "set_brightness"
  | .updateCall => false

/-- Whether an effect is a cache resynchronization. -/
def isResync : Effect → Bool
  | .query _ _ _ => false
  | .updateCall => true

/-- C4: every accessor of the adapter (is_on, is_dimmable, brightness, led,
on_since, state_information), invoked before any successful
resynchronization since construction (cache still `none`), raises the
not-ready error, which is distinct from the device-exception and validation
errors. -/
theorem accessors_before_update_not_ready :
    is_on none = .error .notReady ∧
    is_dimmable none = .error .notReady ∧
    brightness none = .error .notReady ∧
    led none = .error .notReady ∧
    (∀ now : Int, on_since none now = .error .notReady) ∧
    (∀ now : Int, state_information none now = .error .notReady) ∧
    (∀ msg, KasaError.notReady ≠ .smartDeviceError msg) ∧
    (∀ msg, KasaError.notReady ≠ .valueError msg) := by
  refine ⟨rfl, rfl, rfl, rfl, fun _ => rfl, fun _ => rfl, ?_, ?_⟩ <;>
    intro msg h <;> exact KasaError.noConfusion h

/-- C8: turn_on, turn_off and set_led carry no synchronized-state
precondition: on a freshly constructed adapter (cache `none`) each succeeds
without a not-ready error and issues exactly its remote call followed by one
resynchronization. -/
theorem mutators_before_update_ok :
    turn_on none =
      (.ok (), [.query "system" "set_relay_state" [("state", .vint 1)],
                .updateCall]) ∧
    turn_off none =
      (.ok (), [.query "system" "set_relay_state" [("state", .vint 0)],
                .updateCall]) ∧
    (∀ state : Bool, set_led none state =
      (.ok (), [.query "system" "set_led_off"
                  [("off", .vint (if state then 0 else 1))],
                .updateCall])) :=
  ⟨rfl, rfl, fun _ => rfl⟩

/-- C3: for every value v, set_brightness on a populated cache without a
"brightness" key raises the capability error (SmartDeviceException) and
issues zero remote calls. -/
theorem set_brightness_non_dimmable (s : SysInfo) (v : PyVal)
    (hnd : hasKey s "brightness" = false) :
    set_brightness (some s) v =
      (.error (.smartDeviceError "Device is not dimmable."), []) := by
  simp [set_brightness, checkUpdated, is_dimmable, hnd]

theorem set_brightness_non_dimmable_witness :
    hasKey ([] : SysInfo) "brightness" = false ∧
    set_brightness (some ([] : SysInfo)) (.vint 50) =
      (.error (.smartDeviceError "Device is not dimmable."), []) :=
  ⟨by decide, set_brightness_non_dimmable [] (.vint 50) (by decide)⟩

/-- C9: the capability check precedes all value validation: on a populated
non-dimmable cache, for every argument v (valid, non-integer or out of
range alike), set_brightness raises the capability error and never a
validation error. -/
theorem capability_check_precedes_validation (s : SysInfo) (v : PyVal)
    (hnd : hasKey s "brightness" = false) :
    (set_brightness (some s) v).1 =
      .error (.smartDeviceError "Device is not dimmable.") ∧
    ∀ msg, (set_brightness (some s) v).1 ≠ .error (.valueError msg) := by
  constructor
  · simp [set_brightness, checkUpdated, is_dimmable, hnd]
  · intro msg h
    simp [set_brightness, checkUpdated, is_dimmable, hnd] at h

theorem capability_check_precedes_validation_witness :
    hasKey [("relay_state", PyVal.vint 1)] "brightness" = false ∧
    ((set_brightness (some [("relay_state", PyVal.vint 1)])
        (.vstr "not an int")).1 =
      .error (.smartDeviceError "Device is not dimmable.") ∧
    ∀ msg, (set_brightness (some [("relay_state", PyVal.vint 1)])
        (.vstr "not an int")).1 ≠ .error (.valueError msg)) :=
  ⟨by decide,
   capability_check_precedes_validation [("relay_state", PyVal.vint 1)]
     (.vstr "not an int") (by decide)⟩

/-- C7: on every populated cache whose "led_off" entry is the integer 0 or
1, the led accessor returns the logical negation: true for 0, false for 1. -/
theorem led_negation (s : SysInfo) :
    (lookupKey s "led_off" = some (.vint 0) → led (some s) = .ok true) ∧
    (lookupKey s "led_off" = some (.vint 1) → led (some s) = .ok false) := by
  constructor <;> intro h <;>
    simp [led, checkUpdated, h, pyIntSub, pyTruthy]

theorem led_negation_witness :
    (lookupKey [("led_off", PyVal.vint 0)] "led_off" = some (.vint 0) ∧
     led (some [("led_off", PyVal.vint 0)]) = .ok true) ∧
    (lookupKey [("led_off", PyVal.vint 1)] "led_off" = some (.vint 1) ∧
     led (some [("led_off", PyVal.vint 1)]) = .ok false) :=
  ⟨⟨by decide, (led_negation [("led_off", PyVal.vint 0)]).1 (by decide)⟩,
   ⟨by decide, (led_negation [("led_off", PyVal.vint 1)]).2 (by decide)⟩⟩

/-- A populated dimmable cache whose device-reported brightness is 150. -/
def overBrightCache : SysInfo := [("brightness", PyVal.vint 150)]

/-- C5 counterexample: on the populated dimmable cache reporting brightness
150, the brightness accessor returns 150, which is not in the range
0..100 — the accessor does not clamp the cached value. -/
theorem brightness_out_of_range_cex :
    is_dimmable (some overBrightCache) = .ok true ∧
    brightness (some overBrightCache) = .ok 150 ∧
    ¬ ((150 : Int) ≤ 100) :=
  ⟨by decide, by decide, by decide⟩

/-- C5 (amended): for every populated cache on a dimmable device whose
cached brightness entry is an integer n with 0 ≤ n ≤ 100, the brightness
accessor returns that n, an integer in the range 0 to 100 inclusive. -/
theorem brightness_in_range (s : SysInfo) (n : Int)
    (hb : lookupKey s "brightness" = some (.vint n))
    (h0 : 0 ≤ n) (h100 : n ≤ 100) :
    brightness (some s) = .ok n ∧ 0 ≤ n ∧ n ≤ 100 := by
  have hk : hasKey s "brightness" = true := by simp [hasKey, hb]
  refine ⟨?_, h0, h100⟩
  simp [brightness, checkUpdated, is_dimmable, hk, hb, pyInt]

theorem brightness_in_range_witness :
    lookupKey [("brightness", PyVal.vint 42)] "brightness" =
      some (.vint 42) ∧ (0 : Int) ≤ 42 ∧ (42 : Int) ≤ 100 ∧
    (brightness (some [("brightness", PyVal.vint 42)]) = .ok 42 ∧
     (0 : Int) ≤ 42 ∧ (42 : Int) ≤ 100) :=
  ⟨by decide, by decide, by decide,
   brightness_in_range [("brightness", PyVal.vint 42)] 42
     (by decide) (by decide) (by decide)⟩

/-- C1: for every integer v with 1 ≤ v ≤ 100, set_brightness(v) on a
populated dimmable cache succeeds, its trace is power-on, resync,
brightness call, resync; the trace contains exactly one brightness remote
call and it carries value v; the power-on call (set_relay_state state=1)
precedes it; and it is followed by exactly one resynchronization. -/
theorem set_brightness_valid_trace (s : SysInfo) (v : Int)
    (hd : hasKey s "brightness" = true) (h1 : 1 ≤ v) (h100 : v ≤ 100) :
    set_brightness (some s) (.vint v) =
      (.ok (), [powerOnCall, .updateCall,
        .query "smartlife.iot.dimmer" "set_brightness"
          [("brightness", .vint v)],
        .updateCall]) ∧
    (set_brightness (some s) (.vint v)).2.countP
      (fun e => isBrightnessCmd e) = 1 ∧
    .query "smartlife.iot.dimmer" "set_brightness" [("brightness", .vint v)]
      ∈ (set_brightness (some s) (.vint v)).2 ∧
    powerOnCall ∈ (set_brightness (some s) (.vint v)).2.takeWhile
      (fun e => !isBrightnessCmd e) ∧
    ((set_brightness (some s) (.vint v)).2.dropWhile
      (fun e => !isBrightnessCmd e)).countP (fun e => isResync e) = 1 := by
  have hv : 0 < v ∧ v ≤ 100 := ⟨by omega, h100⟩
  have key : set_brightness (some s) (.vint v) =
      (.ok (), [powerOnCall, .updateCall,
        .query "smartlife.iot.dimmer" "set_brightness"
          [("brightness", .vint v)],
        .updateCall]) := by
    simp [set_brightness, checkUpdated, is_dimmable, hd, pyIntOfVal, hv,
      turn_on, powerOnCall]
  rw [key]
  refine ⟨rfl, ?_, ?_, ?_, ?_⟩ <;>
    simp [List.countP, List.countP.go, List.takeWhile, List.dropWhile,
      isBrightnessCmd, isResync, powerOnCall]

theorem set_brightness_valid_trace_witness :
    hasKey [("brightness", PyVal.vint 10)] "brightness" = true ∧
    (1 : Int) ≤ 50 ∧ (50 : Int) ≤ 100 ∧
    set_brightness (some [("brightness", PyVal.vint 10)]) (.vint 50) =
      (.ok (), [powerOnCall, .updateCall,
        .query "smartlife.iot.dimmer" "set_brightness"
          [("brightness", .vint 50)],
        .updateCall]) :=
  ⟨by decide, by decide, by decide,
   (set_brightness_valid_trace [("brightness", PyVal.vint 10)] 50
     (by decide) (by decide) (by decide)).1⟩

/-- C2: for every argument v that is not an integer (isinstance, which
admits bool) or an integer outside 1..100 (including 0), set_brightness on
a populated dimmable cache raises a ValueError and issues zero remote
calls, leaving device state untouched. -/
theorem set_brightness_invalid_rejected (s : SysInfo) (v : PyVal)
    (hd : hasKey s "brightness" = true)
    (hv : pyIntOfVal v = none ∨
      ∃ n, pyIntOfVal v = some n ∧ ¬ (0 < n ∧ n ≤ 100)) :
    (∃ msg, (set_brightness (some s) v).1 = .error (.valueError msg)) ∧
    (set_brightness (some s) v).2 = [] := by
  rcases hv with h | ⟨n, hn, hr⟩
  · refine ⟨⟨typeErrMsg, ?_⟩, ?_⟩ <;>
      simp [set_brightness, checkUpdated, is_dimmable, hd, h]
  · refine ⟨⟨rangeErrMsg n, ?_⟩, ?_⟩ <;>
      simp [set_brightness, checkUpdated, is_dimmable, hd, hn, hr]

theorem set_brightness_invalid_rejected_witness :
    hasKey [("brightness", PyVal.vint 50)] "brightness" = true ∧
    pyIntOfVal (.vint 0) = some 0 ∧ ¬ ((0 : Int) < 0 ∧ (0 : Int) ≤ 100) ∧
    ((∃ msg,
        (set_brightness (some [("brightness", PyVal.vint 50)])
          (.vint 0)).1 = .error (.valueError msg)) ∧
     (set_brightness (some [("brightness", PyVal.vint 50)])
        (.vint 0)).2 = []) :=
  ⟨by decide, by decide, by decide,
   set_brightness_invalid_rejected [("brightness", PyVal.vint 50)] (.vint 0)
     (by decide) (Or.inr ⟨0, by decide, by decide⟩)⟩

/-- C10: set_brightness accepts booleans as integers: on a populated
dimmable cache, True passes the isinstance and range checks (comparing as
1) and issues the power-on and brightness remote calls with the resyncs,
while False passes the isinstance check (comparing as 0) but raises the
range ValueError, issuing no calls. -/
theorem set_brightness_bool_args (s : SysInfo)
    (hd : hasKey s "brightness" = true) :
    pyIntOfVal (.vbool true) = some 1 ∧
    pyIntOfVal (.vbool false) = some 0 ∧
    set_brightness (some s) (.vbool true) =
      (.ok (), [powerOnCall, .updateCall,
        .query "smartlife.iot.dimmer" "set_brightness"
          [("brightness", .vbool true)],
        .updateCall]) ∧
    set_brightness (some s) (.vbool false) =
      (.error (.valueError (rangeErrMsg 0)), []) := by
  refine ⟨rfl, rfl, ?_, ?_⟩ <;>
    simp [set_brightness, checkUpdated, is_dimmable, hd, pyIntOfVal,
      turn_on, powerOnCall, rangeErrMsg]

theorem set_brightness_bool_args_witness :
    hasKey [("brightness", PyVal.vint 50)] "brightness" = true ∧
    (pyIntOfVal (.vbool true) = some 1 ∧
     pyIntOfVal (.vbool false) = some 0 ∧
     set_brightness (some [("brightness", PyVal.vint 50)]) (.vbool true) =
       (.ok (), [powerOnCall, .updateCall,
         .query "smartlife.iot.dimmer" "set_brightness"
           [("brightness", .vbool true)],
         .updateCall]) ∧
     set_brightness (some [("brightness", PyVal.vint 50)]) (.vbool false) =
       (.error (.valueError (rangeErrMsg 0)), [])) :=
  ⟨by decide,
   set_brightness_bool_args [("brightness", PyVal.vint 50)] (by decide)⟩

/-- C6: whenever state_information on a populated cache returns a mapping,
that mapping contains key "Brightness" iff is_dimmable is true, and it
always contains keys "LED state" and "On since". -/
theorem state_information_keys (s : SysInfo) (now : Int) (d : SysInfo)
    (h : state_information (some s) now = .ok d) :
    (hasKey d "Brightness" = true ↔ is_dimmable (some s) = .ok true) ∧
    hasKey d "LED state" = true ∧ hasKey d "On since" = true := by
  simp only [state_information, checkUpdated] at h
  cases hl : led (some s) <;> rw [hl] at h
  · simp at h
  cases ho : on_since (some s) now <;> rw [ho] at h
  · simp at h
  cases hdim : is_dimmable (some s) <;> rw [hdim] at h
  · simp at h
  rename_i l o b
  cases b
  · simp only [Except.ok.injEq] at h
    subst h
    simp [hasKey, lookupKey, hdim]
  · cases hb : brightness (some s) <;> rw [hb] at h
    · simp at h
    simp only [Except.ok.injEq] at h
    subst h
    simp [hasKey, lookupKey, hdim]

theorem state_information_keys_witness :
    state_information
        (some [("led_off", PyVal.vint 0), ("on_time", PyVal.vint 5),
               ("brightness", PyVal.vint 50)]) 100 =
      .ok [("LED state", PyVal.vbool true), ("On since", PyVal.vint 95),
           ("Brightness", PyVal.vint 50)] ∧
    ((hasKey [("LED state", PyVal.vbool true), ("On since", PyVal.vint 95),
              ("Brightness", PyVal.vint 50)] "Brightness" = true ↔
      is_dimmable
        (some [("led_off", PyVal.vint 0), ("on_time", PyVal.vint 5),
               ("brightness", PyVal.vint 50)]) = .ok true) ∧
     hasKey [("LED state", PyVal.vbool true), ("On since", PyVal.vint 95),
             ("Brightness", PyVal.vint 50)] "LED state" = true ∧
     hasKey [("LED state", PyVal.vbool true), ("On since", PyVal.vint 95),
             ("Brightness", PyVal.vint 50)] "On since" = true) :=
  ⟨by decide,
   state_information_keys
     [("led_off", PyVal.vint 0), ("on_time", PyVal.vint 5),
      ("brightness", PyVal.vint 50)] 100
     [("LED state", PyVal.vbool true), ("On since", PyVal.vint 95),
      ("Brightness", PyVal.vint 50)] (by decide)⟩

end KasaPlug
